import Mathlib

/-!
Verification of the patch-transcoding pipeline of `apk_patch_size_estimator.py`
(`calculate_sizes`, lines 91-197) against its natural-language specification.

The program is a shell-orchestration pipeline: it calls `bsdiff`, `head`,
`tail`, `bunzip2`, `cat` and `gzip` on files in a temp directory.  We embed it
shallowly: file contents are byte lists, the file system is a map from path
strings to optional contents, and each external binary is a behaviour supplied
by a `Tools` structure (contents of the files the command reads go in, either
the bytes it writes or a non-zero exit status comes out).  `calculate_sizes`
below is a line-by-line translation of the Python function; each step is
annotated with the source lines it embeds.
-/

deriving instance DecidableEq for Except

namespace ApkEstimator

/-- File contents: a sequence of bytes. -/
abbrev Bytes := List Nat

/-- A file system: maps a path to the contents of the file there, or `none`
when no file exists at that path. -/
def FS := String → Option Bytes

/-- Writing a file: `open(p, 'w')` followed by writing `b` (also models a
redirected stdout, and a tool writing its output file). -/
def FS.write (σ : FS) (p : String) (b : Bytes) : FS :=
  fun q => if q = p then some b else σ q

/-- Models `os.remove(p)`. -/
def FS.remove (σ : FS) (p : String) : FS :=
  fun q => if q = p then none else σ q

/-- Models `if os.path.exists(p): os.remove(p)` — the idiom the source uses
for every stale-artifact removal. -/
def FS.removeIfExists (σ : FS) (p : String) : FS :=
  if (σ p).isSome then σ.remove p else σ

/-- The external-tool invocations `calculate_sizes` performs, in source order.
The two gzip invocations are distinct steps: line 177 compresses the rebuilt
patch, lines 182-187 compress the new APK. -/
inductive Step
  | bsdiffS
  | headS
  | tailS
  | bunzip2S
  | catS
  | gzipPatchS
  | gzipNewS
deriving DecidableEq

/-- Errors raised by `calculate_sizes`.

* `calledProcessError cmd status` models the `subprocess.CalledProcessError`
  raised by `subprocess.check_output` (lines 123, 156, 177): its message
  carries the failing command (here abstracted to the step it performs) and
  the non-zero return code.
* `stepMessage named status` models the explicit
  `raise Exception('Problem at the ... step, returned code: %s' % ret_code)`
  after a `Popen`/`wait` (lines 142, 153, 172, 186-187); `named` is the step
  that the message text names, which need not be the step that actually
  failed. -/
inductive PyError
  | calledProcessError (cmd : Step) (status : Int)
  | stepMessage (named : Step) (status : Int)
deriving DecidableEq

/-- The step an error's message identifies as the failing one. -/
def PyError.namedStep : PyError → Step
  | .calledProcessError c _ => c
  | .stepMessage n _ => n

/-- The exit status an error's message carries. -/
def PyError.status : PyError → Int
  | .calledProcessError _ st => st
  | .stepMessage _ st => st

/-- One external invocation as recorded in a run's trace: the step performed,
for gzip also the `-N` effort level passed, and the exit status observed. -/
inductive Call
  | tool (s : Step) (status : Int)
  | gzipCall (site : Step) (effort : Nat) (status : Int)
deriving DecidableEq

/-- The step an invocation performed. -/
def Call.step : Call → Step
  | .tool s _ => s
  | .gzipCall s _ _ => s

/-- The exit status of an invocation. -/
def Call.status : Call → Int
  | .tool _ st => st
  | .gzipCall _ _ st => st

/-- The gzip effort level of an invocation, when it is a gzip invocation. -/
def Call.gzipEffort? : Call → Option Nat
  | .gzipCall _ e _ => some e
  | .tool _ _ => none

/-- Behaviours of the external binaries the pipeline invokes.  Each field
takes the contents of the file(s) the command reads (`none` if no file exists
at that path) and returns `.ok b` when the command exits 0 having written the
bytes `b` to its output (stdout or output file), or `.error st` when it exits
with the non-zero status `st` having produced no output.  `gzip` additionally
takes the `-N` effort level it is invoked with. -/
structure Tools where
  bsdiff : Option Bytes → Option Bytes → Except Int Bytes
  head32 : Option Bytes → Except Int Bytes
  tailFrom33 : Option Bytes → Except Int Bytes
  bunzip2 : Option Bytes → Except Int Bytes
  cat2 : Option Bytes → Option Bytes → Except Int Bytes
  gzip : Nat → Option Bytes → Except Int Bytes

/-- The dictionary `calculate_sizes` returns (lines 196-197). -/
structure CalcResult where
  gzipped_new_file_size : Nat
  bsdiff_patch_size : Nat
deriving DecidableEq

/-- Everything observable about one run of `calculate_sizes`: the returned
dictionary or the raised error, the final file system, and the trace of
external invocations in order. -/
structure RunOut where
  result : Except PyError CalcResult
  fs : FS
  trace : List Call

/-- Line 126: `raw_bsdiff_path = temp_path + '.raw_bsdiff'`. -/
def raw_bsdiff_path (temp_path : String) : String := temp_path ++ ".raw_bsdiff"

/-- Line 127: `bzipped_bsdiff_path = raw_bsdiff_path + '.bz2'`. -/
def bzipped_bsdiff_path (temp_path : String) : String :=
  raw_bsdiff_path temp_path ++ ".bz2"

/-- Line 128: `gzipped_bsdiff_path = raw_bsdiff_path + '.gz'`. -/
def gzipped_bsdiff_path (temp_path : String) : String :=
  raw_bsdiff_path temp_path ++ ".gz"

/-- Line 129: `bsdiff_header_path = temp_path + '.raw_bsdiff_header'`. -/
def bsdiff_header_path (temp_path : String) : String :=
  temp_path ++ ".raw_bsdiff_header"

/-- Lines 159-162: the path the rebuilt patch is written to —
`save_patch_path` when one was given, else `raw_bsdiff_path + '.rebuilt'`. -/
def rebuilt_bsdiff_path (save_patch_path : Option String) (temp_path : String) :
    String :=
  match save_patch_path with
  | some p => p
  | none => raw_bsdiff_path temp_path ++ ".rebuilt"

/-- Lines 116-117: remove stale `temp_path + '.gz'` and `temp_path`. -/
def clearStale (σ : FS) (temp_path : String) : FS :=
  (σ.removeIfExists (temp_path ++ ".gz")).removeIfExists temp_path

/-- The WorkArea paths a run of `calculate_sizes` may create, overwrite or
remove.  Everything the pipeline writes or removes is at one of these. -/
def workPaths (temp_path : String) (save_patch_path : Option String) :
    List String :=
  [temp_path, temp_path ++ ".gz",
   raw_bsdiff_path temp_path, bzipped_bsdiff_path temp_path,
   gzipped_bsdiff_path temp_path, bsdiff_header_path temp_path,
   rebuilt_bsdiff_path save_patch_path temp_path,
   rebuilt_bsdiff_path save_patch_path temp_path ++ ".gz"]

/-- Shallow embedding of `calculate_sizes` (src/apk_patch_size_estimator.py,
lines 91-197).  `find_bins_or_die` (line 120) is modeled as a no-op: the
`Tools` argument supplies the behaviour of every binary, so none is missing.

Step-by-step correspondence with the source:
* lines 116-117: stale `temp_path('.gz')` removal (`clearStale`);
* line 123: `bsdiff old_file new_file temp_path` via `check_output`;
* lines 130-133: stale work-file removal;
* line 136: `open(bsdiff_header_path, 'w')` truncates/creates the header file;
* lines 137-142: `head -c 32 bsdiff_header_path` with stdout redirected into
  that same header file (note: the source reads from `bsdiff_header_path`,
  the file just truncated, not from `temp_path`); on non-zero exit it raises
  `'Problem at the bsdiff step, ...'`;
* line 147: `open(bzipped_bsdiff_path, 'w')`;
* lines 148-153: `tail -c +33 temp_path` with stdout into the `.bz2` file;
* line 156: `bunzip2 -d -q` via `check_output`; on success it replaces the
  `.bz2` file with its decompressed content at `raw_bsdiff_path`;
* lines 159-165: choice of the rebuilt path and stale removal there;
* line 166: `open(rebuilt_bsdiff_path, 'w')`;
* lines 167-172: `cat bsdiff_header_path raw_bsdiff_path` with stdout into the
  rebuilt file;
* line 177: `gzip -9 rebuilt_bsdiff_path` via `check_output`; in-place: it
  writes `rebuilt + '.gz'` and removes the uncompressed file;
* line 178: `os.stat(rebuilt + '.gz').st_size`;
* line 181: `open(temp_path, 'w')`;
* lines 182-187: `gzip --keep -c -9 new_file` with stdout into `temp_path`;
* line 190: `os.stat(temp_path).st_size`;
* lines 193-194: cleanup of `temp_path` and `gzipped_bsdiff_path`;
* lines 196-197: the returned dictionary. -/
def calculate_sizes (T : Tools) (old_file new_file : String)
    (save_patch_path : Option String) (temp_path : String) (σ0 : FS) : RunOut :=
  let σ := clearStale σ0 temp_path
  match T.bsdiff (σ old_file) (σ new_file) with
  | .error st => ⟨.error (.calledProcessError .bsdiffS st), σ, [.tool .bsdiffS st]⟩
  | .ok diffBytes =>
    let σ := σ.write temp_path diffBytes
    let σ := (((σ.removeIfExists (raw_bsdiff_path temp_path)).removeIfExists
        (bzipped_bsdiff_path temp_path)).removeIfExists
        (gzipped_bsdiff_path temp_path)).removeIfExists
        (bsdiff_header_path temp_path)
    let σ := σ.write (bsdiff_header_path temp_path) []
    match T.head32 (σ (bsdiff_header_path temp_path)) with
    | .error st =>
      ⟨.error (.stepMessage .bsdiffS st), σ,
        [.tool .bsdiffS 0, .tool .headS st]⟩
    | .ok headOut =>
      let σ := σ.write (bsdiff_header_path temp_path) headOut
      let σ := σ.write (bzipped_bsdiff_path temp_path) []
      match T.tailFrom33 (σ temp_path) with
      | .error st =>
        ⟨.error (.stepMessage .tailS st), σ,
          [.tool .bsdiffS 0, .tool .headS 0, .tool .tailS st]⟩
      | .ok tailOut =>
        let σ := σ.write (bzipped_bsdiff_path temp_path) tailOut
        match T.bunzip2 (σ (bzipped_bsdiff_path temp_path)) with
        | .error st =>
          ⟨.error (.calledProcessError .bunzip2S st), σ,
            [.tool .bsdiffS 0, .tool .headS 0, .tool .tailS 0,
             .tool .bunzip2S st]⟩
        | .ok rawOut =>
          let σ := (σ.write (raw_bsdiff_path temp_path) rawOut).remove
              (bzipped_bsdiff_path temp_path)
          let rebuilt := rebuilt_bsdiff_path save_patch_path temp_path
          let σ := (σ.removeIfExists rebuilt).removeIfExists (rebuilt ++ ".gz")
          let σ := σ.write rebuilt []
          match T.cat2 (σ (bsdiff_header_path temp_path))
              (σ (raw_bsdiff_path temp_path)) with
          | .error st =>
            ⟨.error (.stepMessage .catS st), σ,
              [.tool .bsdiffS 0, .tool .headS 0, .tool .tailS 0,
               .tool .bunzip2S 0, .tool .catS st]⟩
          | .ok catOut =>
            let σ := σ.write rebuilt catOut
            match T.gzip 9 (σ rebuilt) with
            | .error st =>
              ⟨.error (.calledProcessError .gzipPatchS st), σ,
                [.tool .bsdiffS 0, .tool .headS 0, .tool .tailS 0,
                 .tool .bunzip2S 0, .tool .catS 0, .gzipCall .gzipPatchS 9 st]⟩
            | .ok gzPatchOut =>
              let σ := (σ.write (rebuilt ++ ".gz") gzPatchOut).remove rebuilt
              let bsdiff_patch_size := ((σ (rebuilt ++ ".gz")).getD []).length
              let σ := σ.write temp_path []
              match T.gzip 9 (σ new_file) with
              | .error st =>
                ⟨.error (.stepMessage .gzipNewS st), σ,
                  [.tool .bsdiffS 0, .tool .headS 0, .tool .tailS 0,
                   .tool .bunzip2S 0, .tool .catS 0,
                   .gzipCall .gzipPatchS 9 0, .gzipCall .gzipNewS 9 st]⟩
              | .ok gzNewOut =>
                let σ := σ.write temp_path gzNewOut
                let gzipped_new_file_size := ((σ temp_path).getD []).length
                let σ := (σ.removeIfExists temp_path).removeIfExists
                    (gzipped_bsdiff_path temp_path)
                ⟨.ok ⟨gzipped_new_file_size, bsdiff_patch_size⟩, σ,
                  [.tool .bsdiffS 0, .tool .headS 0, .tool .tailS 0,
                   .tool .bunzip2S 0, .tool .catS 0,
                   .gzipCall .gzipPatchS 9 0, .gzipCall .gzipNewS 9 0]⟩

/-- Diff output used by the concrete runs: a 32-byte header (all bytes 7)
followed by a two-byte compressed payload. -/
def sampleDiff : Bytes := List.replicate 32 7 ++ [5, 6]

/-- Concrete external-tool behaviours used to evaluate the pipeline: faithful
coreutils; `bsdiff` produces `sampleDiff` on any pair of existing inputs;
`bunzip2` models decompression by doubling its input; `gzip` is the identity
codec, so the bytes of a compressed artifact are exactly the bytes that were
handed to the compressor. -/
def toolsCid : Tools where
  bsdiff := fun o n => match o, n with
    | some _, some _ => .ok sampleDiff
    | _, _ => .error 1
  head32 := fun b => match b with
    | some l => .ok (l.take 32)
    | none => .error 1
  tailFrom33 := fun b => match b with
    | some l => .ok (l.drop 32)
    | none => .error 1
  bunzip2 := fun b => match b with
    | some l => .ok (l ++ l)
    | none => .error 1
  cat2 := fun a b => match a, b with
    | some x, some y => .ok (x ++ y)
    | _, _ => .error 1
  gzip := fun _ b => match b with
    | some l => .ok l
    | none => .error 1

/-- Like `toolsCid` but the `head` invocation exits with status 1. -/
def toolsHeadFail : Tools := { toolsCid with head32 := fun _ => .error 1 }

/-- Like `toolsCid` but the `bsdiff` invocation exits with status 2. -/
def toolsDiffFail : Tools := { toolsCid with bsdiff := fun _ _ => .error 2 }

/-- Path of the old input file in the concrete runs. -/
def oldP : String := "o"

/-- Path of the new input file in the concrete runs. -/
def newP : String := "n"

/-- The `temp_path` of the concrete runs. -/
def tmpP : String := "t"

/-- The `save_patch_path` of the concrete runs that pass one. -/
def saveP : String := "s"

/-- Initial file system for the concrete runs: an old file at `oldP`, a new
file at `newP`, nothing else. -/
def fs0 : FS := fun q =>
  if q = oldP then some [0] else if q = newP then some [1, 2] else none

/-- Like `fs0` but with a stale artifact left at a WorkArea path. -/
def fs0stale : FS := fun q =>
  if q = raw_bsdiff_path tmpP then some [9, 9, 9] else fs0 q

/-- The file-system state reached by a successful run right after the
patch-gzip step (line 178): the whole update chain of `calculate_sizes` up to
and including `gzip -9` replacing the rebuilt patch by `rebuilt ++ ".gz"`.
The byte arguments are the outputs of the successive tool invocations. -/
def postPatchFS (σ : FS) (tp rebuilt : String)
    (diffBytes headOut tailOut rawOut catOut gzPatchOut : Bytes) : FS :=
  (((((((((((((((((clearStale σ tp).write tp diffBytes).removeIfExists
      (raw_bsdiff_path tp)).removeIfExists
      (bzipped_bsdiff_path tp)).removeIfExists
      (gzipped_bsdiff_path tp)).removeIfExists
      (bsdiff_header_path tp)).write (bsdiff_header_path tp) []).write
      (bsdiff_header_path tp) headOut).write
      (bzipped_bsdiff_path tp) []).write
      (bzipped_bsdiff_path tp) tailOut).write
      (raw_bsdiff_path tp) rawOut).remove
      (bzipped_bsdiff_path tp)).removeIfExists rebuilt).removeIfExists
      (rebuilt ++ ".gz")).write rebuilt []).write rebuilt catOut).write
      (rebuilt ++ ".gz") gzPatchOut).remove rebuilt

/-- The final file-system state of a successful run (after the new-APK gzip of
lines 181-190 and the cleanup of lines 193-194). -/
def successFS (σ : FS) (tp rebuilt : String)
    (diffBytes headOut tailOut rawOut catOut gzPatchOut gzNewOut : Bytes) : FS :=
  ((((postPatchFS σ tp rebuilt diffBytes headOut tailOut rawOut catOut
      gzPatchOut).write tp []).write tp gzNewOut).removeIfExists
      tp).removeIfExists (gzipped_bsdiff_path tp)

/-! ## Helper lemmas -/

@[simp] theorem FS.write_apply (σ : FS) (p b q) :
    σ.write p b q = if q = p then some b else σ q := rfl

@[simp] theorem FS.remove_apply (σ : FS) (p q) :
    σ.remove p q = if q = p then none else σ q := rfl

@[simp] theorem FS.removeIfExists_apply (σ : FS) (p q) :
    σ.removeIfExists p q = if q = p then none else σ q := by
  unfold FS.removeIfExists
  split
  · rfl
  · next hp =>
    split
    · next hq => subst hq; exact Option.not_isSome_iff_eq_none.mp hp
    · rfl

theorem str_append_cancel {s a b : String} (he : s ++ a = s ++ b) : a = b := by
  have hd : (s ++ a).data = (s ++ b).data := congrArg String.data he
  rw [String.data_append, String.data_append] at hd
  exact String.ext (List.append_cancel_left hd)

theorem str_ne_append {a b : String} (s : String) (h : a ≠ b) :
    s ++ a ≠ s ++ b :=
  fun he => h (str_append_cancel he)

theorem str_ne_self_append {t : String} (s : String) (h : t ≠ "") :
    s ≠ s ++ t := by
  intro he
  have h0 : s ++ "" = s ++ t := by rw [String.append_empty]; exact he
  exact h (str_append_cancel h0).symm

theorem str_append_right_inj (s a b : String) : s ++ a = s ++ b ↔ a = b :=
  ⟨str_append_cancel, fun h => by rw [h]⟩

theorem str_eq_self_append (s t : String) : s = s ++ t ↔ t = "" := by
  constructor
  · intro he
    have h0 : s ++ "" = s ++ t := by rw [String.append_empty]; exact he
    exact (str_append_cancel h0).symm
  · intro h; rw [h, String.append_empty]

theorem str_append_eq_self (s t : String) : s ++ t = s ↔ t = "" := by
  rw [eq_comm, str_eq_self_append]

/-- Inversion of a successful run: the seven external invocations all
succeeded, the returned sizes are the lengths of the two gzip outputs, the
final file system is `successFS`, and the trace lists the seven invocations
with exit status 0.  The new-APK gzip input is the contents of `new_file` in
the state just after line 181 truncated `temp_path`. -/
theorem run_ok_inv (T : Tools) (old_file new_file : String) (sp : Option String)
    (tp : String) (σ0 : FS) (r : CalcResult)
    (hr : (calculate_sizes T old_file new_file sp tp σ0).result = .ok r) :
    ∃ diffBytes headOut tailOut rawOut catOut gzPatchOut gzNewOut : Bytes,
      (calculate_sizes T old_file new_file sp tp σ0).fs =
        successFS σ0 tp (rebuilt_bsdiff_path sp tp) diffBytes headOut tailOut
          rawOut catOut gzPatchOut gzNewOut ∧
      (calculate_sizes T old_file new_file sp tp σ0).trace =
        [.tool .bsdiffS 0, .tool .headS 0, .tool .tailS 0, .tool .bunzip2S 0,
         .tool .catS 0, .gzipCall .gzipPatchS 9 0, .gzipCall .gzipNewS 9 0] ∧
      r = ⟨gzNewOut.length, gzPatchOut.length⟩ ∧
      T.gzip 9
        (((postPatchFS σ0 tp (rebuilt_bsdiff_path sp tp) diffBytes headOut
            tailOut rawOut catOut gzPatchOut).write tp []) new_file) =
        .ok gzNewOut := by
  simp only [calculate_sizes] at hr ⊢
  split at hr
  · next => simp at hr
  · next diffBytes heq =>
    split at hr
    · next => simp at hr
    · next headOut heq2 =>
      split at hr
      · next => simp at hr
      · next tailOut heq3 =>
        split at hr
        · next => simp at hr
        · next rawOut heq4 =>
          split at hr
          · next => simp at hr
          · next catOut heq5 =>
            split at hr
            · next => simp at hr
            · next gzPatchOut heq6 =>
              split at hr
              · next => simp at hr
              · next gzNewOut heq7 =>
                refine ⟨diffBytes, headOut, tailOut, rawOut, catOut, gzPatchOut,
                  gzNewOut, rfl, rfl, ?_, heq7⟩
                simp only [RunOut.result] at hr
                simp at hr
                subst hr
                have hne : rebuilt_bsdiff_path sp tp ++ ".gz" ≠
                    rebuilt_bsdiff_path sp tp :=
                  (str_ne_self_append (rebuilt_bsdiff_path sp tp)
                    (by decide)).symm
                simp [hne]

/-! ## C5: a bsdiff failure aborts with the diff step and status, no new files -/

/-- C5: if the external `bsdiff` exits with a non-zero status, `calculate_sizes`
raises the `CalledProcessError` of the diff step carrying that status, and the
work directory gains no new file: every path that held no file before the call
still holds none after it. -/
theorem bsdiff_fail_aborts (T : Tools) (old_file new_file : String)
    (sp : Option String) (tp : String) (σ0 : FS) (st : Int)
    (hb : T.bsdiff (clearStale σ0 tp old_file) (clearStale σ0 tp new_file) =
      .error st) :
    (calculate_sizes T old_file new_file sp tp σ0).result =
      .error (.calledProcessError .bsdiffS st) ∧
    ∀ p, σ0 p = none → (calculate_sizes T old_file new_file sp tp σ0).fs p = none := by
  refine ⟨by simp only [calculate_sizes, hb], fun p hp => ?_⟩
  simp only [calculate_sizes, hb]
  simp [clearStale, hp]

/-- Witness for `bsdiff_fail_aborts` at a concrete run. -/
theorem bsdiff_fail_aborts_witness :
    (toolsDiffFail.bsdiff (clearStale fs0 tmpP oldP) (clearStale fs0 tmpP newP) =
      .error 2) ∧
    ((calculate_sizes toolsDiffFail oldP newP none tmpP fs0).result =
      .error (.calledProcessError .bsdiffS 2) ∧
    ∀ p, fs0 p = none →
      (calculate_sizes toolsDiffFail oldP newP none tmpP fs0).fs p = none) :=
  ⟨by decide, bsdiff_fail_aborts toolsDiffFail oldP newP none tmpP fs0 2 (by decide)⟩

/-! ## C2, C1: the 32-byte header split is broken in the code -/

/-- C2 (code evaluated at the failing input): the source's header-extraction
step runs `head -c 32` on `bsdiff_header_path` — the file line 136 just
truncated — instead of on `temp_path`, so the produced prefix file is empty
rather than the first 32 bytes of the diff output.  Here the diff output
`sampleDiff` has 34 ≥ 32 bytes and a non-empty 32-byte prefix, the run
succeeds, yet the header work file ends up containing zero bytes. -/
theorem header_file_empty_cx :
    32 ≤ sampleDiff.length ∧
    (calculate_sizes toolsCid oldP newP none tmpP fs0).result = .ok ⟨2, 4⟩ ∧
    (calculate_sizes toolsCid oldP newP none tmpP fs0).fs (bsdiff_header_path tmpP) =
      some [] ∧
    sampleDiff.take 32 ≠ ([] : Bytes) := by
  decide

/-- C1 (code evaluated at the failing input): with the identity `gzip` of
`toolsCid`, the final patch artifact carries exactly the bytes of the
transcoded patch assembled at the concatenation step.  Those bytes are the
decompressed payload alone — `bunzip2` of `sampleDiff.drop 32`, which
`toolsCid` models as `[5,6] ++ [5,6]` — and differ from the claimed
reconstruction `sampleDiff.take 32 ++ decompressed payload`: the 32 header
bytes are missing. -/
theorem transcoded_patch_drops_header_cx :
    (calculate_sizes toolsCid oldP newP none tmpP fs0).fs
      (rebuilt_bsdiff_path none tmpP ++ ".gz") = some [5, 6, 5, 6] ∧
    toolsCid.bunzip2 (some (sampleDiff.drop 32)) = .ok [5, 6, 5, 6] ∧
    ([5, 6, 5, 6] : Bytes) ≠ sampleDiff.take 32 ++ [5, 6, 5, 6] := by
  decide

/-! ## C4: error reporting on non-zero tool exits -/

/-- C4 (amended): whenever an external invocation exits non-zero,
`calculate_sizes` aborts immediately — the failing invocation is the last one
traced — raising an error that carries that invocation's exit status, and no
result dictionary is returned.  The error's message names the failing step for
every step except the header-extraction (`head`) step, whose failure message
misattributes the problem to the bsdiff step (line 142 of the source). -/
theorem error_reporting_amended (T : Tools) (old_file new_file : String)
    (sp : Option String) (tp : String) (σ0 : FS) (e : PyError)
    (he : (calculate_sizes T old_file new_file sp tp σ0).result = .error e) :
    ∃ c : Call,
      (calculate_sizes T old_file new_file sp tp σ0).trace.getLast? = some c ∧
      e.status = c.status ∧
      e.namedStep = (if c.step = Step.headS then Step.bsdiffS else c.step) ∧
      ∀ r : CalcResult,
        (calculate_sizes T old_file new_file sp tp σ0).result ≠ .ok r := by
  simp only [calculate_sizes] at he ⊢
  split at he
  · next st heq =>
    simp at he; subst he
    exact ⟨.tool .bsdiffS st, rfl, rfl, rfl, fun r h => Except.noConfusion h⟩
  · next diffBytes heq =>
    split at he
    · next st heq2 =>
      simp at he; subst he
      exact ⟨.tool .headS st, rfl, rfl, rfl, fun r h => Except.noConfusion h⟩
    · next headOut heq2 =>
      split at he
      · next st heq3 =>
        simp at he; subst he
        exact ⟨.tool .tailS st, rfl, rfl, rfl, fun r h => Except.noConfusion h⟩
      · next tailOut heq3 =>
        split at he
        · next st heq4 =>
          simp at he; subst he
          exact ⟨.tool .bunzip2S st, rfl, rfl, rfl, fun r h => Except.noConfusion h⟩
        · next rawOut heq4 =>
          split at he
          · next st heq5 =>
            simp at he; subst he
            exact ⟨.tool .catS st, rfl, rfl, rfl, fun r h => Except.noConfusion h⟩
          · next catOut heq5 =>
            split at he
            · next st heq6 =>
              simp at he; subst he
              exact ⟨.gzipCall .gzipPatchS 9 st, rfl, rfl, rfl,
                fun r h => Except.noConfusion h⟩
            · next gzPatchOut heq6 =>
              split at he
              · next st heq7 =>
                simp at he; subst he
                exact ⟨.gzipCall .gzipNewS 9 st, rfl, rfl, rfl,
                  fun r h => Except.noConfusion h⟩
              · next gzNewOut heq7 =>
                simp at he

/-- Witness for `error_reporting_amended` at a concrete run (head fails). -/
theorem error_reporting_amended_witness :
    ((calculate_sizes toolsHeadFail oldP newP none tmpP fs0).result =
      .error (.stepMessage .bsdiffS 1)) ∧
    ∃ c : Call,
      (calculate_sizes toolsHeadFail oldP newP none tmpP fs0).trace.getLast? =
        some c ∧
      (PyError.stepMessage .bsdiffS 1).status = c.status ∧
      (PyError.stepMessage .bsdiffS 1).namedStep =
        (if c.step = Step.headS then Step.bsdiffS else c.step) ∧
      ∀ r : CalcResult,
        (calculate_sizes toolsHeadFail oldP newP none tmpP fs0).result ≠ .ok r :=
  ⟨by decide,
    error_reporting_amended toolsHeadFail oldP newP none tmpP fs0
      (.stepMessage .bsdiffS 1) (by decide)⟩

/-- C4 counterexample: a run in which the `head` invocation exits with status
1.  The last (failing) traced invocation is the head step, but the raised
error's message names the bsdiff step — so the error does not identify the
step that failed. -/
theorem error_misnames_head_cx :
    (calculate_sizes toolsHeadFail oldP newP none tmpP fs0).result =
      .error (.stepMessage .bsdiffS 1) ∧
    ((calculate_sizes toolsHeadFail oldP newP none tmpP fs0).trace.getLast?.map
      Call.step) = some Step.headS ∧
    (PyError.stepMessage Step.bsdiffS 1).namedStep ≠ Step.headS := by
  decide

/-! ## C8: both final artifacts are compressed with gzip at effort 9 -/

/-- C8: in every successful run, the pipeline invokes the standardized codec
exactly twice — once for the rebuilt patch (line 177) and once for the new
APK (line 183) — and both invocations use effort level 9, so the two returned
sizes are measured on a mutually comparable basis. -/
theorem gzip_effort_uniform (T : Tools) (old_file new_file : String)
    (sp : Option String) (tp : String) (σ0 : FS) (r : CalcResult)
    (hr : (calculate_sizes T old_file new_file sp tp σ0).result = .ok r) :
    (calculate_sizes T old_file new_file sp tp σ0).trace.filterMap
      Call.gzipEffort? = [9, 9] ∧
    (((calculate_sizes T old_file new_file sp tp σ0).trace.filter
      fun c => (Call.gzipEffort? c).isSome).map Call.step) =
      [Step.gzipPatchS, Step.gzipNewS] := by
  obtain ⟨_, _, _, _, _, _, _, _, htr, _, _⟩ :=
    run_ok_inv T old_file new_file sp tp σ0 r hr
  rw [htr]
  exact ⟨rfl, rfl⟩

/-- Witness for `gzip_effort_uniform` at a concrete run. -/
theorem gzip_effort_uniform_witness :
    ((calculate_sizes toolsCid oldP newP none tmpP fs0).result = .ok ⟨2, 4⟩) ∧
    ((calculate_sizes toolsCid oldP newP none tmpP fs0).trace.filterMap
      Call.gzipEffort? = [9, 9] ∧
    (((calculate_sizes toolsCid oldP newP none tmpP fs0).trace.filter
      fun c => (Call.gzipEffort? c).isSome).map Call.step) =
      [Step.gzipPatchS, Step.gzipNewS]) :=
  ⟨by decide, gzip_effort_uniform toolsCid oldP newP none tmpP fs0 ⟨2, 4⟩ (by decide)⟩

/-! ## C7: the new-APK gzip size is an independent measurement -/

/-- C7: when `new_file` is none of the WorkArea paths, the
`gzipped_new_file_size` a successful run returns equals the length of the
output of compressing the original contents of `new_file` with gzip at effort
9 directly — the diff computation does not alter this measurement. -/
theorem gzipped_new_independent (T : Tools) (old_file new_file : String)
    (sp : Option String) (tp : String) (σ0 : FS) (r : CalcResult) (g : Bytes)
    (hnew : new_file ∉ workPaths tp sp)
    (hr : (calculate_sizes T old_file new_file sp tp σ0).result = .ok r)
    (hg : T.gzip 9 (σ0 new_file) = .ok g) :
    r.gzipped_new_file_size = g.length := by
  simp only [workPaths, List.mem_cons, List.not_mem_nil, or_false,
    not_or] at hnew
  obtain ⟨n1, n2, n3, n4, n5, n6, n7, n8⟩ := hnew
  obtain ⟨db, hOut, tOut, rOut, cOut, gp, gn, _, _, hrq, hgz⟩ :=
    run_ok_inv T old_file new_file sp tp σ0 r hr
  have hread :
      ((postPatchFS σ0 tp (rebuilt_bsdiff_path sp tp) db hOut tOut rOut cOut
        gp).write tp []) new_file = σ0 new_file := by
    simp [postPatchFS, clearStale, n1, n2, n3, n4, n5, n6, n7, n8]
  rw [hread, hg] at hgz
  have hgg : g = gn := by
    injection hgz
  subst hrq
  rw [hgg]

/-- Witness for `gzipped_new_independent` at a concrete run. -/
theorem gzipped_new_independent_witness :
    (newP ∉ workPaths tmpP none) ∧
    ((calculate_sizes toolsCid oldP newP none tmpP fs0).result = .ok ⟨2, 4⟩) ∧
    (toolsCid.gzip 9 (fs0 newP) = .ok [1, 2]) ∧
    (CalcResult.gzipped_new_file_size ⟨2, 4⟩ = List.length [1, 2]) :=
  ⟨by decide, by decide, by decide,
    gzipped_new_independent toolsCid oldP newP none tmpP fs0 ⟨2, 4⟩ [1, 2]
      (by decide) (by decide) (by decide)⟩

/-! ## C3: cleanup — the code leaves WorkArea artifacts behind -/

/-- C3 counterexample: a successful run with no `save_patch_path` after which
a WorkArea artifact — the decompressed diff body at
`temp_path + '.raw_bsdiff'` — still exists in the temp directory, although
the claim requires that no WorkArea artifact survive such a call. -/
theorem workarea_artifact_remains_cx :
    (calculate_sizes toolsCid oldP newP none tmpP fs0).result = .ok ⟨2, 4⟩ ∧
    (calculate_sizes toolsCid oldP newP none tmpP fs0).fs (raw_bsdiff_path tmpP) =
      some [5, 6, 5, 6] := by
  decide

/-- C3 (amended): provided the rebuilt-patch path and its `.gz`
(`save_patch_path` when one is given, else `temp_path + '.raw_bsdiff.rebuilt'`)
do not collide with the other WorkArea paths, a successful run removes
`temp_path`, `temp_path + '.raw_bsdiff.gz'` (lines 193-194) and the
uncompressed rebuilt patch (replaced in place by `gzip -9`, line 177), but
leaves behind the header work file, the decompressed diff body at
`temp_path + '.raw_bsdiff'`, and the gzipped rebuilt patch — the
caller-requested saved patch when `save_patch_path` was given; and after a
failed run, unless the failing step was the diff invocation itself, the
bsdiff work file at `temp_path` is still on disk when the error
propagates. -/
theorem cleanup_partial (T : Tools) (old_file new_file : String)
    (sp : Option String) (tp : String) (σ0 : FS)
    (hrt : rebuilt_bsdiff_path sp tp ≠ tp)
    (hrg : rebuilt_bsdiff_path sp tp ≠ gzipped_bsdiff_path tp)
    (hrh : rebuilt_bsdiff_path sp tp ≠ bsdiff_header_path tp)
    (hrr : rebuilt_bsdiff_path sp tp ≠ raw_bsdiff_path tp)
    (hgt : rebuilt_bsdiff_path sp tp ++ ".gz" ≠ tp)
    (hgg : rebuilt_bsdiff_path sp tp ++ ".gz" ≠ gzipped_bsdiff_path tp)
    (hgh : rebuilt_bsdiff_path sp tp ++ ".gz" ≠ bsdiff_header_path tp)
    (hgr : rebuilt_bsdiff_path sp tp ++ ".gz" ≠ raw_bsdiff_path tp) :
    (∀ r : CalcResult,
      (calculate_sizes T old_file new_file sp tp σ0).result = .ok r →
      (calculate_sizes T old_file new_file sp tp σ0).fs tp = none ∧
      (calculate_sizes T old_file new_file sp tp σ0).fs
        (gzipped_bsdiff_path tp) = none ∧
      (calculate_sizes T old_file new_file sp tp σ0).fs
        (rebuilt_bsdiff_path sp tp) = none ∧
      (∃ hb, (calculate_sizes T old_file new_file sp tp σ0).fs
        (bsdiff_header_path tp) = some hb) ∧
      (∃ rb, (calculate_sizes T old_file new_file sp tp σ0).fs
        (raw_bsdiff_path tp) = some rb) ∧
      (∃ gb, (calculate_sizes T old_file new_file sp tp σ0).fs
        (rebuilt_bsdiff_path sp tp ++ ".gz") = some gb)) ∧
    (∀ e : PyError,
      (calculate_sizes T old_file new_file sp tp σ0).result = .error e →
      (∃ b, (calculate_sizes T old_file new_file sp tp σ0).fs tp = some b) ∨
      (calculate_sizes T old_file new_file sp tp σ0).trace =
        [Call.tool Step.bsdiffS e.status]) := by
  have dth : tp ≠ bsdiff_header_path tp := by
    simp only [bsdiff_header_path]
    exact str_ne_self_append tp (by decide)
  have dtr : tp ≠ raw_bsdiff_path tp := by
    simp only [raw_bsdiff_path]
    exact str_ne_self_append tp (by decide)
  have dtb : tp ≠ bzipped_bsdiff_path tp := by
    simp only [bzipped_bsdiff_path, raw_bsdiff_path, String.append_assoc]
    exact str_ne_self_append tp (by decide)
  have dtg : tp ≠ gzipped_bsdiff_path tp := by
    simp only [gzipped_bsdiff_path, raw_bsdiff_path, String.append_assoc]
    exact str_ne_self_append tp (by decide)
  have dht : bsdiff_header_path tp ≠ tp := dth.symm
  have drt : raw_bsdiff_path tp ≠ tp := dtr.symm
  have dhr : bsdiff_header_path tp ≠ raw_bsdiff_path tp := by
    simp only [bsdiff_header_path, raw_bsdiff_path]
    exact str_ne_append tp (by decide)
  have dhb : bsdiff_header_path tp ≠ bzipped_bsdiff_path tp := by
    simp only [bsdiff_header_path, bzipped_bsdiff_path, raw_bsdiff_path,
      String.append_assoc]
    exact str_ne_append tp (by decide)
  have dhg : bsdiff_header_path tp ≠ gzipped_bsdiff_path tp := by
    simp only [bsdiff_header_path, gzipped_bsdiff_path, raw_bsdiff_path,
      String.append_assoc]
    exact str_ne_append tp (by decide)
  have drb : raw_bsdiff_path tp ≠ bzipped_bsdiff_path tp := by
    simp only [bzipped_bsdiff_path, raw_bsdiff_path]
    exact str_ne_self_append (tp ++ ".raw_bsdiff") (by decide)
  have drg : raw_bsdiff_path tp ≠ gzipped_bsdiff_path tp := by
    simp only [gzipped_bsdiff_path, raw_bsdiff_path]
    exact str_ne_self_append (tp ++ ".raw_bsdiff") (by decide)
  have dgr2 : rebuilt_bsdiff_path sp tp ++ ".gz" ≠ rebuilt_bsdiff_path sp tp :=
    (str_ne_self_append (rebuilt_bsdiff_path sp tp) (by decide)).symm
  have sht : bsdiff_header_path tp ≠ rebuilt_bsdiff_path sp tp := hrh.symm
  have shg : bsdiff_header_path tp ≠ rebuilt_bsdiff_path sp tp ++ ".gz" :=
    hgh.symm
  have srt : raw_bsdiff_path tp ≠ rebuilt_bsdiff_path sp tp := hrr.symm
  have srg : raw_bsdiff_path tp ≠ rebuilt_bsdiff_path sp tp ++ ".gz" :=
    hgr.symm
  have stp : tp ≠ rebuilt_bsdiff_path sp tp := hrt.symm
  have stg : tp ≠ rebuilt_bsdiff_path sp tp ++ ".gz" := hgt.symm
  constructor
  · intro r hr
    obtain ⟨db, hOut, tOut, rOut, cOut, gp, gn, hfs, _, _, _⟩ :=
      run_ok_inv T old_file new_file sp tp σ0 r hr
    rw [hfs]
    refine ⟨?_, ?_, ?_, ⟨hOut, ?_⟩, ⟨rOut, ?_⟩, ⟨gp, ?_⟩⟩
    all_goals
      simp [successFS, postPatchFS, clearStale, dht, dhg, dhb, dhr, drt, drg,
        drb, dgr2, sht, shg, srt, srg, stp, stg, hrt, hrg, hgt, hgg]
  · intro e he
    simp only [calculate_sizes] at he ⊢
    split at he
    · next st heq =>
      simp at he; subst he
      exact Or.inr rfl
    · next diffBytes heq =>
      split at he
      · next st heq2 =>
        simp at he; subst he
        refine Or.inl ⟨diffBytes, ?_⟩
        simp [clearStale, dtg, dth, dtb, dtr]
      · next headOut heq2 =>
        split at he
        · next st heq3 =>
          simp at he; subst he
          refine Or.inl ⟨diffBytes, ?_⟩
          simp [clearStale, dtg, dth, dtb, dtr]
        · next tailOut heq3 =>
          split at he
          · next st heq4 =>
            simp at he; subst he
            refine Or.inl ⟨diffBytes, ?_⟩
            simp [clearStale, dtg, dth, dtb, dtr]
          · next rawOut heq4 =>
            split at he
            · next st heq5 =>
              simp at he; subst he
              refine Or.inl ⟨diffBytes, ?_⟩
              simp [clearStale, dtg, dth, dtb, dtr, stp, stg]
            · next catOut heq5 =>
              split at he
              · next st heq6 =>
                simp at he; subst he
                refine Or.inl ⟨diffBytes, ?_⟩
                simp [clearStale, dtg, dth, dtb, dtr, stp, stg]
              · next gzPatchOut heq6 =>
                split at he
                · next st heq7 =>
                  simp at he; subst he
                  exact Or.inl ⟨[], by simp⟩
                · next gzNewOut heq7 =>
                  simp at he

/-- Witness for `cleanup_partial` at a concrete run (no save path, so the
non-collision hypotheses are decidable facts about the derived paths). -/
theorem cleanup_partial_witness :
    (rebuilt_bsdiff_path none tmpP ≠ tmpP) ∧
    (rebuilt_bsdiff_path none tmpP ≠ gzipped_bsdiff_path tmpP) ∧
    (rebuilt_bsdiff_path none tmpP ≠ bsdiff_header_path tmpP) ∧
    (rebuilt_bsdiff_path none tmpP ≠ raw_bsdiff_path tmpP) ∧
    (rebuilt_bsdiff_path none tmpP ++ ".gz" ≠ tmpP) ∧
    (rebuilt_bsdiff_path none tmpP ++ ".gz" ≠ gzipped_bsdiff_path tmpP) ∧
    (rebuilt_bsdiff_path none tmpP ++ ".gz" ≠ bsdiff_header_path tmpP) ∧
    (rebuilt_bsdiff_path none tmpP ++ ".gz" ≠ raw_bsdiff_path tmpP) ∧
    ((∀ r : CalcResult,
      (calculate_sizes toolsCid oldP newP none tmpP fs0).result = .ok r →
      (calculate_sizes toolsCid oldP newP none tmpP fs0).fs tmpP = none ∧
      (calculate_sizes toolsCid oldP newP none tmpP fs0).fs
        (gzipped_bsdiff_path tmpP) = none ∧
      (calculate_sizes toolsCid oldP newP none tmpP fs0).fs
        (rebuilt_bsdiff_path none tmpP) = none ∧
      (∃ hb, (calculate_sizes toolsCid oldP newP none tmpP fs0).fs
        (bsdiff_header_path tmpP) = some hb) ∧
      (∃ rb, (calculate_sizes toolsCid oldP newP none tmpP fs0).fs
        (raw_bsdiff_path tmpP) = some rb) ∧
      (∃ gb, (calculate_sizes toolsCid oldP newP none tmpP fs0).fs
        (rebuilt_bsdiff_path none tmpP ++ ".gz") = some gb)) ∧
    (∀ e : PyError,
      (calculate_sizes toolsCid oldP newP none tmpP fs0).result = .error e →
      (∃ b, (calculate_sizes toolsCid oldP newP none tmpP fs0).fs tmpP =
        some b) ∨
      (calculate_sizes toolsCid oldP newP none tmpP fs0).trace =
        [Call.tool Step.bsdiffS e.status])) :=
  ⟨by decide, by decide, by decide, by decide, by decide, by decide, by decide,
    by decide,
    cleanup_partial toolsCid oldP newP none tmpP fs0 (by decide) (by decide)
      (by decide) (by decide) (by decide) (by decide) (by decide) (by decide)⟩

/-! ## C10: where the saved patch ends up -/

/-- C10: when a save path is given and the run succeeds, the persisted patch
is the gzip-compressed file at `save_patch_path + '.gz'`, its size is exactly
the returned `bsdiff_patch_size`, and no file remains at `save_patch_path`
itself (gzip replaced the uncompressed file, line 177). -/
theorem saved_patch_location (T : Tools) (old_file new_file sp tp : String)
    (σ0 : FS) (r : CalcResult)
    (h1 : sp ≠ tp) (h2 : sp ≠ gzipped_bsdiff_path tp)
    (h3 : sp ++ ".gz" ≠ tp) (h4 : sp ++ ".gz" ≠ gzipped_bsdiff_path tp)
    (hr : (calculate_sizes T old_file new_file (some sp) tp σ0).result = .ok r) :
    ∃ g : Bytes,
      (calculate_sizes T old_file new_file (some sp) tp σ0).fs (sp ++ ".gz") =
        some g ∧
      r.bsdiff_patch_size = g.length ∧
      (calculate_sizes T old_file new_file (some sp) tp σ0).fs sp = none := by
  obtain ⟨db, hOut, tOut, rOut, cOut, gp, gn, hfs, _, hrq, _⟩ :=
    run_ok_inv T old_file new_file (some sp) tp σ0 r hr
  have h5 : sp ++ ".gz" ≠ sp := (str_ne_self_append sp (by decide)).symm
  refine ⟨gp, ?_, ?_, ?_⟩
  · rw [hfs]
    simp [successFS, postPatchFS, rebuilt_bsdiff_path, h1, h2, h3, h4, h5]
  · rw [hrq]
  · rw [hfs]
    simp [successFS, postPatchFS, rebuilt_bsdiff_path, h1, h2]

/-- Witness for `saved_patch_location` at a concrete run. -/
theorem saved_patch_location_witness :
    (saveP ≠ tmpP) ∧ (saveP ≠ gzipped_bsdiff_path tmpP) ∧
    (saveP ++ ".gz" ≠ tmpP) ∧ (saveP ++ ".gz" ≠ gzipped_bsdiff_path tmpP) ∧
    ((calculate_sizes toolsCid oldP newP (some saveP) tmpP fs0).result =
      .ok ⟨2, 4⟩) ∧
    ∃ g : Bytes,
      (calculate_sizes toolsCid oldP newP (some saveP) tmpP fs0).fs (saveP ++ ".gz") =
        some g ∧
      CalcResult.bsdiff_patch_size ⟨2, 4⟩ = g.length ∧
      (calculate_sizes toolsCid oldP newP (some saveP) tmpP fs0).fs saveP = none :=
  ⟨by decide, by decide, by decide, by decide, by decide,
    saved_patch_location toolsCid oldP newP saveP tmpP fs0 ⟨2, 4⟩ (by decide)
      (by decide) (by decide) (by decide) (by decide)⟩

/-! ## C6: input files are never modified or deleted -/

/-- C6: when the input paths are none of the WorkArea paths, every run of
`calculate_sizes` — successful or failed — leaves the contents of `old_file`
and `new_file` exactly as they were before the call: the pipeline only reads
them (bsdiff at line 123, `gzip --keep -c` at line 183). -/
theorem inputs_preserved (T : Tools) (old_file new_file : String)
    (sp : Option String) (tp : String) (σ0 : FS)
    (hold : old_file ∉ workPaths tp sp) (hnew : new_file ∉ workPaths tp sp) :
    (calculate_sizes T old_file new_file sp tp σ0).fs old_file = σ0 old_file ∧
    (calculate_sizes T old_file new_file sp tp σ0).fs new_file = σ0 new_file := by
  simp only [workPaths, List.mem_cons, List.not_mem_nil, or_false,
    not_or] at hold hnew
  obtain ⟨o1, o2, o3, o4, o5, o6, o7, o8⟩ := hold
  obtain ⟨n1, n2, n3, n4, n5, n6, n7, n8⟩ := hnew
  simp only [calculate_sizes]
  repeat' split
  all_goals
    exact ⟨by simp [clearStale, o1, o2, o3, o4, o5, o6, o7, o8],
           by simp [clearStale, n1, n2, n3, n4, n5, n6, n7, n8]⟩

/-- Witness for `inputs_preserved` at a concrete run. -/
theorem inputs_preserved_witness :
    (oldP ∉ workPaths tmpP none) ∧ (newP ∉ workPaths tmpP none) ∧
    ((calculate_sizes toolsCid oldP newP none tmpP fs0).fs oldP = fs0 oldP ∧
     (calculate_sizes toolsCid oldP newP none tmpP fs0).fs newP = fs0 newP) :=
  ⟨by decide, by decide,
    inputs_preserved toolsCid oldP newP none tmpP fs0 (by decide) (by decide)⟩

/-! ## C9: determinism between runs -/

/-- C9: the observable outcome of `calculate_sizes` is a function of the
contents of the two input files and the external-tool behaviours alone: two
invocations over file systems that agree on `old_file` and `new_file` — in
particular a re-run after a first run left stale WorkArea artifacts behind —
return the same result (hence the same `bsdiff_patch_size` and
`gzipped_new_file_size`) and perform the same invocations. -/
theorem run_deterministic (T : Tools) (old_file new_file : String)
    (sp : Option String) (tp : String) (σ1 σ2 : FS)
    (ho : σ1 old_file = σ2 old_file) (hn : σ1 new_file = σ2 new_file) :
    (calculate_sizes T old_file new_file sp tp σ1).result =
      (calculate_sizes T old_file new_file sp tp σ2).result ∧
    (calculate_sizes T old_file new_file sp tp σ1).trace =
      (calculate_sizes T old_file new_file sp tp σ2).trace := by
  simp only [calculate_sizes, clearStale, FS.write_apply, FS.remove_apply,
    FS.removeIfExists_apply, ho, hn, ite_true, ite_false]
  repeat' split
  all_goals exact ⟨rfl, rfl⟩

/-- Witness for `run_deterministic` at a concrete pair of runs. -/
theorem run_deterministic_witness :
    (fs0 oldP = fs0stale oldP) ∧ (fs0 newP = fs0stale newP) ∧
    ((calculate_sizes toolsCid oldP newP none tmpP fs0).result =
      (calculate_sizes toolsCid oldP newP none tmpP fs0stale).result ∧
     (calculate_sizes toolsCid oldP newP none tmpP fs0).trace =
      (calculate_sizes toolsCid oldP newP none tmpP fs0stale).trace) :=
  ⟨by decide, by decide,
    run_deterministic toolsCid oldP newP none tmpP fs0 fs0stale (by decide)
      (by decide)⟩

end ApkEstimator
